import Mathlib

/-!
# Verification of the FFmpeg bridge client (webvideo-editor)

Shallow embedding of `src/lib/ffmpegClient.ts` (the `FFmpegClient` class),
the shared message types of `src/types.ts`, and the worker-side command
builders of `src/workers/ffmpeg.worker.ts` (`executeConvert`, `executeMerge`).

The JavaScript client is an event-driven state machine on one thread: every
observable action (promise settlement, progress-callback invocation,
`postMessage` to the worker) is modelled as an explicit `Effect` value, and
each synchronous block of the source becomes a pure function
`Client → Client × List Effect`.  Byte buffers (`Uint8Array`/`ArrayBuffer`)
are modelled as `List Nat`; `URL.createObjectURL(new Blob(_, {type}))` is
modelled as an `ObjUrl` recording the blob's media type (the source's empty
string `''` for "no URL" becomes `none`); `crypto.randomUUID()` and
`Date.now()` are environment inputs collected in `Env`.
-/

namespace WebVideo

/-- `ProcessingStatus` from `src/types.ts`. -/
inductive PStatus
  | idle
  | loading
  | processing
  | complete
  | error
deriving DecidableEq, Repr

/-- `ProcessingState` from `src/types.ts`: the shape every progress-callback
invocation receives. -/
structure ProcessingState where
  status : PStatus
  progress : Nat
  message : String
  logs : List String
deriving DecidableEq, Repr

/-- A named frame as sent by the worker in a `complete` payload
(`frames?: { name, data }[]` in `WorkerResponse`). -/
structure FrameIn where
  name : String
  data : List Nat
deriving DecidableEq, Repr

/-- The `type` discriminant of `WorkerResponse` in `src/types.ts`. -/
inductive RespType
  | loaded
  | progress
  | log
  | complete
  | error
deriving DecidableEq, Repr

/-- The `payload` of a `WorkerResponse` (all fields optional, as in the
source). -/
structure WPayload where
  progress : Option Nat := none
  message : Option String := none
  data : Option (List Nat) := none
  frames : Option (List FrameIn) := none
  error : Option String := none
  step : Option String := none
deriving DecidableEq, Repr

/-- A full `WorkerResponse` message arriving from the execution context. -/
structure WorkerMsg where
  type : RespType
  payload : WPayload := {}
deriving DecidableEq, Repr

/-- The four command kinds of `FFmpegCommand.type` / `ExportResult.type`. -/
inductive CmdKind
  | trim
  | frames
  | convert
  | merge
deriving DecidableEq, Repr

/-- `MergeSettings.format`. -/
inductive MergeFormat
  | mp4
  | webm
deriving DecidableEq, Repr

/-- `ConvertSettings.quality`. -/
inductive Quality
  | low
  | medium
  | high
deriving DecidableEq, Repr

/-- An object URL produced by `URL.createObjectURL(new Blob(bytes, {type: mime}))`,
abstracted to the media type it tags the bytes with. -/
structure ObjUrl where
  mime : String
deriving DecidableEq, Repr

/-- `FrameData` from `src/types.ts`: one materialized extracted frame. -/
structure FrameOut where
  name : String
  data : List Nat
  objectUrl : ObjUrl
deriving DecidableEq, Repr

/-- `ExportResult` from `src/types.ts`.  `id` is the `crypto.randomUUID()`
value, `createdAt` the `Date.now()` timestamp; `objectUrl = none` models the
source's empty-string URL of a frames result. -/
structure ExportResult where
  id : String
  type : CmdKind
  filename : String
  size : Nat
  createdAt : Nat
  data : List Nat
  objectUrl : Option ObjUrl
  frames : Option (List FrameOut) := none
deriving DecidableEq, Repr

/-- Environment inputs the client reads when materializing a result:
`Date.now()` and `crypto.randomUUID()`. -/
structure Env where
  ts : Nat
  uuid : String
deriving DecidableEq, Repr

/-- Outbound `postMessage` to the execution context (`WorkerMessage` type in
the source); the input byte buffers transferred with an `execute` message are
not tracked, only which command kind is dispatched. -/
inductive OutMsg
  | load
  | execute (kind : CmdKind)
deriving DecidableEq, Repr

/-- Observable effects of a synchronous block of client code. -/
inductive Effect
  | cb (st : ProcessingState)
  | post (workerGen : Nat) (m : OutMsg)
  | opResolve (r : ExportResult)
  | opReject (msg : String)
  | loadResolve (pid : Nat)
  | loadReject (pid : Nat) (msg : String)
deriving DecidableEq, Repr

/-- Settlement state of the memoized load promise. -/
inductive PState
  | pending
  | resolvedP
  | rejectedP (msg : String)
deriving DecidableEq, Repr

/-- The client's `loadPromise` field: promise identity (`pid`), its settlement
state, and whether its `handleLoad` listener is still registered on the
worker. -/
structure LoadP where
  pid : Nat
  state : PState
  listenerReg : Bool
deriving DecidableEq, Repr

/-- A registered per-call `handleResult` listener: which command it belongs
to and (for merge) the output format used at materialization. -/
structure ResListener where
  kind : CmdKind
  fmt : MergeFormat
deriving DecidableEq, Repr

/-- State of an `FFmpegClient` instance.  The worker reference is a generation
number (`worker = some g`), `none` when the source field is `null`; a fresh
generation is taken from `nextGen` each time `initWorker` runs, so context
recreation is observable. -/
structure Client where
  worker : Option Nat
  nextGen : Nat
  isLoaded : Bool
  loadPromise : Option LoadP
  cbSet : Bool
  logs : List String
  timeoutArmed : Bool
  resListener : Option ResListener
  nextPid : Nat
deriving DecidableEq, Repr

/-- `TIMEOUT_MS` constant of the client (5 minutes). -/
def TIMEOUT_MS : Nat := 300000

/-- The timeout error message delivered by `startTimeout`'s timer. -/
def timeoutMsg : String := "Processing timed out. The operation took too long."

/-- The error message thrown when `SharedArrayBuffer` is unavailable. -/
def sabMsg : String :=
  "SharedArrayBuffer is not available. " ++
  "FFmpeg.wasm requires SharedArrayBuffer support. " ++
  "Please ensure the server sends Cross-Origin-Opener-Policy: same-origin and " ++
  "Cross-Origin-Embedder-Policy: require-corp headers."

/-- The rejection message when the worker reference is `null`. -/
def workerNotInitMsg : String := "Worker not initialized"

/-- The error thrown by `merge` when fewer than two clips are supplied. -/
def mergeTooFewMsg : String := "Need at least 2 clips to merge"

/-- `initWorker`: creates a fresh worker and wires its handlers. -/
def initWorker (c : Client) : Client :=
  { c with worker := some c.nextGen, nextGen := c.nextGen + 1 }

/-- The client as built by the constructor (fields initialized, then
`initWorker`). -/
def freshClient : Client :=
  initWorker
    { worker := none, nextGen := 0, isLoaded := false, loadPromise := none,
      cbSet := false, logs := [], timeoutArmed := false, resListener := none,
      nextPid := 0 }

/-- `terminate()`: clears the timeout, terminates and drops the worker (its
registered listeners die with it), and resets `isLoaded` and `loadPromise`. -/
def Client.terminate (c : Client) : Client :=
  { c with timeoutArmed := false, worker := none, isLoaded := false,
           loadPromise := none, resListener := none }

/-- The body of the timer armed by `startTimeout`: deliver a timeout error
through the progress callback, then `terminate()` and `initWorker()`.
Note that it settles no pending promise. -/
def timeoutFire (c : Client) : Client × List Effect :=
  (initWorker c.terminate,
   [Effect.cb ⟨PStatus.error, 0, timeoutMsg, c.logs⟩])

/-- What a call to `load(callback?)` returns to its caller. -/
inductive LoadResult
  | resolvedNow
  | thrown (msg : String)
  | joined (pid : Nat)
  | created (pid : Nat) (immediateReject : Option String)
deriving DecidableEq, Repr

/-- The `ProcessingState` passed to the callback when `load` starts loading. -/
def loadingState : ProcessingState :=
  ⟨PStatus.loading, 0, "Loading FFmpeg...", []⟩

/-- One call to `load(callback?)`, mirroring the source line by line:
already loaded → resolve now; no `SharedArrayBuffer` (`sab = false`) →
report through the callback and throw; a memoized `loadPromise` → return it
unchanged (whatever its settlement state); otherwise memoize a new promise
whose executor immediately rejects when the worker reference is `null`, or
registers `handleLoad`, posts `load`, and reports a loading state. -/
def loadCall (sab : Bool) (hasCb : Bool) (c : Client) :
    Client × List Effect × LoadResult :=
  if c.isLoaded then (c, [], LoadResult.resolvedNow)
  else if !sab then
    (c, if hasCb then [Effect.cb ⟨PStatus.error, 0, sabMsg, []⟩] else [],
     LoadResult.thrown sabMsg)
  else
    match c.loadPromise with
    | some lp => (c, [], LoadResult.joined lp.pid)
    | none =>
      match c.worker with
      | none =>
        ({ c with
             loadPromise :=
               some ⟨c.nextPid, PState.rejectedP workerNotInitMsg, false⟩,
             nextPid := c.nextPid + 1 },
         [Effect.loadReject c.nextPid workerNotInitMsg],
         LoadResult.created c.nextPid (some workerNotInitMsg))
      | some g =>
        ({ c with
             loadPromise := some ⟨c.nextPid, PState.pending, true⟩,
             nextPid := c.nextPid + 1 },
         [Effect.post g OutMsg.load] ++
           (if hasCb then [Effect.cb loadingState] else []),
         LoadResult.created c.nextPid none)

/-- `n` consecutive calls to `load` on the same client with no intervening
worker event (the single-threaded model of `n` concurrent callers). -/
def loadCalls (sab : Bool) (hasCb : Bool) (c : Client) :
    Nat → Client × List Effect × List LoadResult
  | 0 => (c, [], [])
  | n + 1 =>
    let r1 := loadCall sab hasCb c
    let rs := loadCalls sab hasCb r1.1 n
    (rs.1, r1.2.1 ++ rs.2.1, r1.2.2 :: rs.2.2)

/-- JavaScript `a || b` on possibly-absent strings (empty string is falsy). -/
def strOr (a : Option String) (b : String) : String :=
  match a with
  | some s => if s = "" then b else s
  | none => b

/-- The permanent `handleMessage` handler (`worker.onmessage`). -/
def handleMessageStep (c : Client) (m : WorkerMsg) : Client × List Effect :=
  match m.type with
  | RespType.loaded => ({ c with isLoaded := true }, [])
  | RespType.progress =>
    match m.payload.progress with
    | some p =>
      if c.cbSet then
        let stepMessage := strOr m.payload.step (strOr m.payload.message "")
        (c, [Effect.cb ⟨PStatus.processing, p,
              (if stepMessage = "" then "Processing... " ++ toString p ++ "%"
               else stepMessage), c.logs⟩])
      else (c, [])
    | none => (c, [])
  | RespType.log =>
    match m.payload.message with
    | some s =>
      if s = "" then (c, [])
      else
        let c' := { c with logs := c.logs ++ [s] }
        (c', if c.cbSet then [Effect.cb ⟨PStatus.processing, 0, s, c'.logs⟩]
             else [])
    | none => (c, [])
  | RespType.complete =>
    ({ c with timeoutArmed := false },
     if c.cbSet then
       [Effect.cb ⟨PStatus.complete, 100, "Processing complete!", c.logs⟩]
     else [])
  | RespType.error =>
    ({ c with timeoutArmed := false },
     if c.cbSet then
       [Effect.cb ⟨PStatus.error, 0, strOr m.payload.error "Unknown error",
         c.logs⟩]
     else [])

/-- The per-load `handleLoad` listener registered by `load`'s executor:
`loaded` resolves and deregisters, `error` rejects and deregisters, all other
events are ignored. -/
def handleLoadStep (c : Client) (m : WorkerMsg) : Client × List Effect :=
  match c.loadPromise with
  | some lp =>
    if lp.listenerReg then
      match m.type with
      | RespType.loaded =>
        ({ c with
             loadPromise := some ⟨lp.pid, PState.resolvedP, false⟩ },
         [Effect.loadResolve lp.pid])
      | RespType.error =>
        let msg := m.payload.error.getD ""
        ({ c with
             loadPromise := some ⟨lp.pid, PState.rejectedP msg, false⟩ },
         [Effect.loadReject lp.pid msg])
      | _ => (c, [])
    else (c, [])
  | none => (c, [])

/-- Result materialization: the body of each command's `handleResult` on a
`complete` event, from the four `resolve(...)` call sites in the source.
`none` when the expected payload field is absent (the source then resolves
nothing). -/
def materialize (env : Env) (k : CmdKind) (fmt : MergeFormat)
    (pl : WPayload) : Option ExportResult :=
  match k with
  | CmdKind.trim =>
    pl.data.map fun d =>
      { id := env.uuid, type := CmdKind.trim,
        filename := "trimmed_" ++ toString env.ts ++ ".mp4",
        size := d.length, createdAt := env.ts, data := d,
        objectUrl := some ⟨"video/mp4"⟩ }
  | CmdKind.frames =>
    pl.frames.map fun fs =>
      { id := env.uuid, type := CmdKind.frames,
        filename := "frames_" ++ toString env.ts ++ ".zip",
        size := (fs.map (fun f => f.data.length)).sum, createdAt := env.ts,
        data := [], objectUrl := none,
        frames := some (fs.map fun f => ⟨f.name, f.data, ⟨"image/jpeg"⟩⟩) }
  | CmdKind.convert =>
    pl.data.map fun d =>
      { id := env.uuid, type := CmdKind.convert,
        filename := "converted_" ++ toString env.ts ++ ".webm",
        size := d.length, createdAt := env.ts, data := d,
        objectUrl := some ⟨"video/webm"⟩ }
  | CmdKind.merge =>
    pl.data.map fun d =>
      let mime := if fmt = MergeFormat.webm then "video/webm" else "video/mp4"
      let ext := if fmt = MergeFormat.webm then "webm" else "mp4"
      { id := env.uuid, type := CmdKind.merge,
        filename := "merged_" ++ toString env.ts ++ "." ++ ext,
        size := d.length, createdAt := env.ts, data := d,
        objectUrl := some ⟨mime⟩ }

/-- One event seen by a (possibly registered) per-call `handleResult`
listener: `complete` and `error` deregister first and then settle (a
`complete` without its payload field settles nothing); other events are
ignored and leave the registration in place. -/
def resListenerStep (env : Env) (rl : Option ResListener) (m : WorkerMsg) :
    Option ResListener × List Effect :=
  match rl with
  | none => (none, [])
  | some l =>
    match m.type with
    | RespType.complete =>
      (none,
       match materialize env l.kind l.fmt m.payload with
       | some r => [Effect.opResolve r]
       | none => [])
    | RespType.error => (none, [Effect.opReject (m.payload.error.getD "")])
    | _ => (some l, [])

/-- A whole trace of worker events through a `handleResult` listener. -/
def resListenerRun (env : Env) (rl : Option ResListener) :
    List WorkerMsg → Option ResListener × List Effect
  | [] => (rl, [])
  | m :: ms =>
    let s1 := resListenerStep env rl m
    let s2 := resListenerRun env s1.1 ms
    (s2.1, s1.2 ++ s2.2)

/-- The client's reaction to one inbound worker event: the permanent
`handleMessage` runs first (it was attached first), then the load listener,
then the per-call result listener, in registration order. -/
def onWorkerMsg (env : Env) (c : Client) (m : WorkerMsg) :
    Client × List Effect :=
  let s1 := handleMessageStep c m
  let s2 := handleLoadStep s1.1 m
  let s3 := resListenerStep env s2.1.resListener m
  ({ s2.1 with resListener := s3.1 }, s1.2 ++ s2.2 ++ s3.2)

/-- The synchronous tail every command runs after `await this.load(callback)`
resolves: reset the log accumulator, install the callback, arm the timeout,
then (in the returned promise's executor) either reject because the worker is
`null`, or register `handleResult` and post the `execute` command. -/
def commandAfterLoad (c : Client) (k : CmdKind) (fmt : MergeFormat) :
    Client × List Effect :=
  let c1 := { c with logs := [], cbSet := true, timeoutArmed := true }
  match c1.worker with
  | none => (c1, [Effect.opReject workerNotInitMsg])
  | some g =>
    ({ c1 with resListener := some ⟨k, fmt⟩ },
     [Effect.post g (OutMsg.execute k)])

/-- One input clip of `merge` (`{file, start, end}`); the trim bounds are
abstracted to naturals, only the clip count matters to the bridge logic
modelled here. -/
structure ClipIn where
  data : List Nat
  start : Nat
  stop : Nat
deriving DecidableEq, Repr

/-- The synchronous head of `merge(clips, settings, callback)`: the
too-few-clips guard runs before anything else (before `await this.load`);
past the guard the call proceeds into `load`. -/
def mergeCall (sab : Bool) (hasCb : Bool) (clips : List ClipIn) (c : Client) :
    Client × List Effect × Except String LoadResult :=
  if clips.length < 2 then (c, [], Except.error mergeTooFewMsg)
  else
    let r := loadCall sab hasCb c
    (r.1, r.2.1, Except.ok r.2.2)

/-! ## Worker-side command builders (`src/workers/ffmpeg.worker.ts`) -/

/-- The string key of a quality tier (`ConvertSettings.quality`). -/
def qualityKey (q : Quality) : String :=
  match q with
  | Quality.low => "low"
  | Quality.medium => "medium"
  | Quality.high => "high"

/-- The `crfMap` record of `executeConvert`. -/
def crfRecord (key : String) : Option Nat :=
  if key = "low" then some 40
  else if key = "medium" then some 32
  else if key = "high" then some 24
  else none

/-- `const crf = crfMap[settings.quality] || 32`. -/
def crfOf (q : Quality) : Nat := (crfRecord (qualityKey q)).getD 32

/-- The ffmpeg argument vector assembled by `executeConvert`. -/
def convertArgs (q : Quality) : List String :=
  ["-i", "input.mp4",
   "-c:v", "libvpx-vp9",
   "-b:v", "0",
   "-crf", toString (crfOf q),
   "-c:a", "libopus",
   "-deadline", "realtime",
   "-cpu-used", "4",
   "output.webm"]

/-- `executeMerge`'s output file name. -/
def mergeOutputName (fmt : MergeFormat) : String :=
  if fmt = MergeFormat.webm then "merged.webm" else "merged.mp4"

/-- The first concatenation attempt of `executeMerge` (step 3): stream copy
for mp4, VP9/Opus re-encode for webm. -/
def mergeFirstArgs (fmt : MergeFormat) : List String :=
  if fmt = MergeFormat.mp4 then
    ["-f", "concat", "-safe", "0", "-i", "concat_list.txt",
     "-c", "copy", mergeOutputName fmt]
  else
    ["-f", "concat", "-safe", "0", "-i", "concat_list.txt",
     "-c:v", "libvpx-vp9", "-b:v", "0", "-crf", "32", "-c:a", "libopus",
     mergeOutputName fmt]

/-- The argument vector `executeMerge` runs inside the `catch` block when the
first attempt throws: reassigned to an H.264/AAC re-encode for mp4, left
unchanged for webm. -/
def mergeFallbackArgs (fmt : MergeFormat) : List String :=
  if fmt = MergeFormat.mp4 then
    ["-f", "concat", "-safe", "0", "-i", "concat_list.txt",
     "-c:v", "libx264", "-preset", "veryfast", "-crf", "23", "-c:a", "aac",
     mergeOutputName fmt]
  else mergeFirstArgs fmt

/-- The sequence of `ffmpeg.exec` argument vectors the concatenation phase
runs, depending on whether the engine rejects the first attempt. -/
def mergeConcatAttempts (fmt : MergeFormat) (firstRejected : Bool) :
    List (List String) :=
  if firstRejected then [mergeFirstArgs fmt, mergeFallbackArgs fmt]
  else [mergeFirstArgs fmt]

/-- An argument vector that performs a zero-re-encode stream copy
(`-c copy`). -/
def isStreamCopyArgs (args : List String) : Bool := args.contains "copy"

/-! ## Derived predicates used by the theorems -/

/-- A worker event that is terminal for a registered `handleResult` or
`handleLoad` listener. -/
def isTerminal (m : WorkerMsg) : Bool :=
  match m.type with
  | RespType.complete => true
  | RespType.error => true
  | _ => false

/-- Effects that reject a command promise. -/
def isOpReject (e : Effect) : Bool :=
  match e with
  | Effect.opReject _ => true
  | _ => false

/-- Effects that post a message to the execution context. -/
def isPost (e : Effect) : Bool :=
  match e with
  | Effect.post _ _ => true
  | _ => false

/-- A fixed environment for the concrete scenarios. -/
def envT : Env := ⟨0, "uuid-0"⟩

/-! ## Helper lemmas -/

/-- A deregistered result listener ignores every later event and settles
nothing. -/
theorem resListenerRun_none (env : Env) (tr : List WorkerMsg) :
    resListenerRun env none tr = (none, []) := by
  induction tr with
  | nil => rfl
  | cons m ms ih => simp [resListenerRun, resListenerStep, ih]

/-- A non-terminal event leaves a registered result listener in place and
settles nothing. -/
theorem resListenerStep_nonterminal (env : Env) (l : ResListener)
    (m : WorkerMsg) (h : isTerminal m = false) :
    resListenerStep env (some l) m = (some l, []) := by
  unfold isTerminal at h
  unfold resListenerStep
  cases htype : m.type <;> simp [htype] at h ⊢

/-- A terminal event deregisters the listener, and settles exactly once
provided a `complete` payload carries its expected field. -/
theorem resListenerStep_terminal (env : Env) (l : ResListener) (m : WorkerMsg)
    (hm : isTerminal m = true)
    (hwf : m.type = RespType.complete →
      (materialize env l.kind l.fmt m.payload).isSome) :
    (resListenerStep env (some l) m).1 = none ∧
    (resListenerStep env (some l) m).2.length = 1 := by
  unfold isTerminal at hm
  unfold resListenerStep
  cases htype : m.type <;> simp [htype] at hm ⊢
  obtain ⟨r, hr⟩ := Option.isSome_iff_exists.mp (hwf htype)
  simp [hr]

/-! ## Claims -/

/-- C1: for every command call (trim, extractFrames, convert, merge)
dispatched to the execution context, once the context delivers its terminal
event (`complete` carrying its payload, or `error`), exactly one settlement
(resolve or reject) fires for that call's promise, the listener is
deregistered at the terminal event, and every event after the terminal one —
including events of a later unrelated call — is ignored by this listener
(the run's outcome does not depend on `post`). -/
theorem C1_exactly_one_settlement (env : Env) (k : CmdKind)
    (fmt : MergeFormat) (pre post : List WorkerMsg) (m : WorkerMsg)
    (hpre : ∀ x ∈ pre, isTerminal x = false)
    (hm : isTerminal m = true)
    (hwf : m.type = RespType.complete →
      (materialize env k fmt m.payload).isSome) :
    resListenerRun env (some ⟨k, fmt⟩) (pre ++ m :: post) =
      (none, (resListenerStep env (some ⟨k, fmt⟩) m).2) ∧
    (resListenerStep env (some ⟨k, fmt⟩) m).2.length = 1 := by
  have hterm := resListenerStep_terminal env ⟨k, fmt⟩ m hm hwf
  refine ⟨?_, hterm.2⟩
  induction pre with
  | nil =>
    simp only [List.nil_append, resListenerRun]
    rw [hterm.1, resListenerRun_none]
    simp
  | cons x xs ih =>
    have hx := hpre x (List.mem_cons_self x xs)
    simp only [List.cons_append, resListenerRun,
      resListenerStep_nonterminal env ⟨k, fmt⟩ x hx]
    exact ih fun y hy => hpre y (List.mem_cons_of_mem x hy)

/-- Witness for C1: a log event, then a `complete` carrying data, then a
stray late `error` event; the run settles exactly once. -/
theorem C1_witness :
    resListenerRun ⟨0, "uuid-0"⟩ (some ⟨CmdKind.trim, MergeFormat.mp4⟩)
        ([⟨RespType.log, { message := some "a" }⟩] ++
          ⟨RespType.complete, { data := some [1, 2] }⟩ ::
            [⟨RespType.error, { error := some "late" }⟩]) =
      (none,
       (resListenerStep ⟨0, "uuid-0"⟩ (some ⟨CmdKind.trim, MergeFormat.mp4⟩)
         ⟨RespType.complete, { data := some [1, 2] }⟩).2) ∧
    (resListenerStep ⟨0, "uuid-0"⟩ (some ⟨CmdKind.trim, MergeFormat.mp4⟩)
      ⟨RespType.complete, { data := some [1, 2] }⟩).2.length = 1 :=
  C1_exactly_one_settlement ⟨0, "uuid-0"⟩ CmdKind.trim MergeFormat.mp4
    [⟨RespType.log, { message := some "a" }⟩]
    [⟨RespType.error, { error := some "late" }⟩]
    ⟨RespType.complete, { data := some [1, 2] }⟩
    (by decide) (by decide) (by decide)

/-- Counterexample for C2: at a fully dispatched command (listener registered,
timer armed), the timeout firing delivers the timeout error only through the
progress callback — it emits no `opReject` (the pending promise is never
rejected) — and clears the per-call listener, so no later settlement of that
call can occur. -/
theorem C2_counterexample :
    (timeoutFire
        ((commandAfterLoad
          (onWorkerMsg envT (loadCall true true freshClient).1
            ⟨RespType.loaded, {}⟩).1 CmdKind.trim MergeFormat.mp4).1)).2 =
      [Effect.cb ⟨PStatus.error, 0, timeoutMsg, []⟩] ∧
    ((timeoutFire
        ((commandAfterLoad
          (onWorkerMsg envT (loadCall true true freshClient).1
            ⟨RespType.loaded, {}⟩).1 CmdKind.trim MergeFormat.mp4).1)).2.any
      isOpReject) = false ∧
    (timeoutFire
        ((commandAfterLoad
          (onWorkerMsg envT (loadCall true true freshClient).1
            ⟨RespType.loaded, {}⟩).1 CmdKind.trim MergeFormat.mp4).1)).1.resListener
      = none := by
  refine ⟨?_, ?_, ?_⟩ <;> rfl

/-- C2 (amended): when the execution context emits no terminal event within
the timeout budget, the timer delivers a timeout error through the progress
callback (the pending promise itself is not settled by the bridge), the
context is destroyed and a fresh one created with the session reset to
unloaded, and a subsequent command on the same client succeeds: its load
posts a fresh `load`, and after the context completes the command, the new
call's promise resolves with the materialized result. -/
theorem C2_timeout_recovery (c : Client) (env : Env) (d : List Nat) :
    (timeoutFire c).2 = [Effect.cb ⟨PStatus.error, 0, timeoutMsg, c.logs⟩] ∧
    (timeoutFire c).1.worker = some c.nextGen ∧
    (timeoutFire c).1.isLoaded = false ∧
    (timeoutFire c).1.loadPromise = none ∧
    (let s2 := loadCall true true (timeoutFire c).1
     let s3 := onWorkerMsg env s2.1 ⟨RespType.loaded, {}⟩
     let s4 := commandAfterLoad s3.1 CmdKind.trim MergeFormat.mp4
     let s5 := onWorkerMsg env s4.1 ⟨RespType.complete, { data := some d }⟩
     s2.2.1 = [Effect.post c.nextGen OutMsg.load, Effect.cb loadingState] ∧
     s4.2 = [Effect.post c.nextGen (OutMsg.execute CmdKind.trim)] ∧
     s5.2 =
       [Effect.cb ⟨PStatus.complete, 100, "Processing complete!", []⟩,
        Effect.opResolve
          { id := env.uuid, type := CmdKind.trim,
            filename := "trimmed_" ++ toString env.ts ++ ".mp4",
            size := d.length, createdAt := env.ts, data := d,
            objectUrl := some ⟨"video/mp4"⟩ }]) := by
  exact ⟨rfl, rfl, rfl, rfl, rfl, rfl, rfl⟩

/-- Counterexample for C3: after a load failure, a second `load` call returns
the memoized (already rejected) promise — it posts nothing to the context and
issues no fresh load attempt. -/
theorem C3_counterexample :
    (loadCall true true
        (onWorkerMsg envT (loadCall true true freshClient).1
          ⟨RespType.error, { error := some "load failed" }⟩).1).2.1 = [] ∧
    (loadCall true true
        (onWorkerMsg envT (loadCall true true freshClient).1
          ⟨RespType.error, { error := some "load failed" }⟩).1).2.2 =
      LoadResult.joined 0 := by
  exact ⟨rfl, rfl⟩

/-- C3 (amended): if the engine load fails, the load promise rejects with the
engine's error message and the session state remains unloaded; however, a
subsequent `load` call does not retry: it returns the same memoized rejected
promise, posting nothing to the execution context. -/
theorem C3_load_failure (errMsg : String) (env : Env) :
    let s1 := loadCall true true freshClient
    let s2 := onWorkerMsg env s1.1 ⟨RespType.error, { error := some errMsg }⟩
    let s3 := loadCall true true s2.1
    s1.2.1 = [Effect.post 0 OutMsg.load, Effect.cb loadingState] ∧
    s1.2.2 = LoadResult.created 0 none ∧
    s2.2 = [Effect.loadReject 0 errMsg] ∧
    s2.1.isLoaded = false ∧
    s2.1.loadPromise = some ⟨0, PState.rejectedP errMsg, false⟩ ∧
    s3.2.1 = [] ∧
    s3.2.2 = LoadResult.joined 0 ∧
    s3.1 = s2.1 := by
  exact ⟨rfl, rfl, rfl, rfl, rfl, rfl, rfl, rfl⟩

/-- While a load is in flight (promise memoized, still unloaded), every
further `load` call joins the same promise with no effects. -/
theorem loadCalls_join (hasCb : Bool) (c : Client) (lp : LoadP) (n : Nat)
    (hl : c.isLoaded = false) (hp : c.loadPromise = some lp) :
    loadCalls true hasCb c n =
      (c, [], List.replicate n (LoadResult.joined lp.pid)) := by
  induction n with
  | zero => simp [loadCalls]
  | succ k ih => simp [loadCalls, loadCall, hl, hp, ih, List.replicate]

/-- C4: `N + 1` concurrent invocations of `load` on an unloaded client with
no load in flight issue exactly one underlying `load` post; the first call
creates the memoized promise and all later calls join that same promise (so
all settle together with its one outcome, delivered by the single
`loadResolve` when the context reports `loaded`); and once loaded, every
further invocation resolves immediately with no effects. -/
theorem C4_load_memoization (env : Env) (c : Client) (g n : Nat)
    (h1 : c.isLoaded = false) (h2 : c.loadPromise = none)
    (h3 : c.worker = some g) :
    (loadCalls true true c (n + 1) =
      ({ c with loadPromise := some ⟨c.nextPid, PState.pending, true⟩,
                nextPid := c.nextPid + 1 },
       [Effect.post g OutMsg.load, Effect.cb loadingState],
       LoadResult.created c.nextPid none ::
         List.replicate n (LoadResult.joined c.nextPid))) ∧
    (onWorkerMsg env (loadCalls true true c (n + 1)).1
        ⟨RespType.loaded, {}⟩).2 = [Effect.loadResolve c.nextPid] ∧
    (onWorkerMsg env (loadCalls true true c (n + 1)).1
        ⟨RespType.loaded, {}⟩).1.isLoaded = true ∧
    (∀ c' : Client, c'.isLoaded = true →
      loadCall true true c' = (c', [], LoadResult.resolvedNow)) := by
  have hfirst : loadCall true true c =
      ({ c with loadPromise := some ⟨c.nextPid, PState.pending, true⟩,
                nextPid := c.nextPid + 1 },
       [Effect.post g OutMsg.load, Effect.cb loadingState],
       LoadResult.created c.nextPid none) := by
    simp [loadCall, h1, h2, h3]
  have hcalls : loadCalls true true c (n + 1) =
      ({ c with loadPromise := some ⟨c.nextPid, PState.pending, true⟩,
                nextPid := c.nextPid + 1 },
       [Effect.post g OutMsg.load, Effect.cb loadingState],
       LoadResult.created c.nextPid none ::
         List.replicate n (LoadResult.joined c.nextPid)) := by
    have hjoin := loadCalls_join true
      { c with loadPromise := some ⟨c.nextPid, PState.pending, true⟩,
               nextPid := c.nextPid + 1 }
      ⟨c.nextPid, PState.pending, true⟩ n (by simpa using h1) rfl
    simp [loadCalls, hfirst, hjoin]
  refine ⟨hcalls, ?_, ?_, ?_⟩
  · rw [hcalls]
    simp [onWorkerMsg, handleMessageStep, handleLoadStep, resListenerStep]
    cases hres : c.resListener <;> simp [hres]
  · rw [hcalls]
    simp [onWorkerMsg, handleMessageStep, handleLoadStep]
  · intro c' h
    simp [loadCall, h]

/-- Witness for C4: three concurrent loads on the fresh client. -/
theorem C4_witness :
    freshClient.isLoaded = false ∧ freshClient.loadPromise = none ∧
    freshClient.worker = some 0 ∧
    ((loadCalls true true freshClient (2 + 1) =
      ({ freshClient with
           loadPromise := some ⟨freshClient.nextPid, PState.pending, true⟩,
           nextPid := freshClient.nextPid + 1 },
       [Effect.post 0 OutMsg.load, Effect.cb loadingState],
       LoadResult.created freshClient.nextPid none ::
         List.replicate 2 (LoadResult.joined freshClient.nextPid))) ∧
     (onWorkerMsg envT (loadCalls true true freshClient (2 + 1)).1
         ⟨RespType.loaded, {}⟩).2 =
       [Effect.loadResolve freshClient.nextPid] ∧
     (onWorkerMsg envT (loadCalls true true freshClient (2 + 1)).1
         ⟨RespType.loaded, {}⟩).1.isLoaded = true ∧
     (∀ c' : Client, c'.isLoaded = true →
       loadCall true true c' = (c', [], LoadResult.resolvedNow))) :=
  ⟨rfl, rfl, rfl,
   C4_load_memoization envT freshClient 0 2 rfl rfl rfl⟩

/-- C5: with `SharedArrayBuffer` absent and the engine not already loaded,
`load` fails at once with the capability error: the client state is
untouched, nothing is posted to the execution context (the only effect is
the same failure reported as an error status through the progress callback),
and the call throws that error. -/
theorem C5_sab_missing (c : Client) (h : c.isLoaded = false) :
    loadCall false true c =
      (c, [Effect.cb ⟨PStatus.error, 0, sabMsg, []⟩],
       LoadResult.thrown sabMsg) := by
  simp [loadCall, h]

/-- Witness for C5: the fresh client with no `SharedArrayBuffer`. -/
theorem C5_witness :
    freshClient.isLoaded = false ∧
    loadCall false true freshClient =
      (freshClient, [Effect.cb ⟨PStatus.error, 0, sabMsg, []⟩],
       LoadResult.thrown sabMsg) :=
  ⟨rfl, C5_sab_missing freshClient rfl⟩

/-- Counterexample for C6: for webm output, the first concatenation attempt
is not a zero-re-encode stream copy — it already re-encodes with VP9. -/
theorem C6_counterexample :
    isStreamCopyArgs (mergeFirstArgs MergeFormat.webm) = false ∧
    (mergeFirstArgs MergeFormat.webm).contains "libvpx-vp9" = true := by
  exact ⟨rfl, rfl⟩

/-- C6 (amended): for mp4 output the concatenation phase first attempts a
zero-re-encode stream copy and, if the engine rejects it, falls back to an
H.264/AAC re-encode; for webm output the single strategy is a VP9/Opus
re-encode — no stream-copy attempt — and an engine rejection merely reruns
the same re-encode arguments. -/
theorem C6_concat_strategy :
    isStreamCopyArgs (mergeFirstArgs MergeFormat.mp4) = true ∧
    isStreamCopyArgs (mergeFallbackArgs MergeFormat.mp4) = false ∧
    (mergeFallbackArgs MergeFormat.mp4).contains "libx264" = true ∧
    isStreamCopyArgs (mergeFirstArgs MergeFormat.webm) = false ∧
    (mergeFirstArgs MergeFormat.webm).contains "libvpx-vp9" = true ∧
    mergeFallbackArgs MergeFormat.webm = mergeFirstArgs MergeFormat.webm ∧
    (∀ fmt : MergeFormat,
      mergeConcatAttempts fmt false = [mergeFirstArgs fmt] ∧
      mergeConcatAttempts fmt true =
        [mergeFirstArgs fmt, mergeFallbackArgs fmt]) := by
  refine ⟨rfl, rfl, rfl, rfl, rfl, rfl, ?_⟩
  intro fmt
  exact ⟨rfl, rfl⟩

/-- C7: convert maps quality tiers low/medium/high to the numeric quality
parameters 40/32/24 through the fixed lookup table, and for every tier the
assembled command targets the fixed VP9 + Opus codec pair with a WebM
output file. -/
theorem C7_convert_quality_and_codecs :
    crfOf Quality.low = 40 ∧ crfOf Quality.medium = 32 ∧
    crfOf Quality.high = 24 ∧
    (∀ q : Quality,
      (convertArgs q).contains "libvpx-vp9" = true ∧
      (convertArgs q).contains "libopus" = true ∧
      (convertArgs q).getLast? = some "output.webm") := by
  refine ⟨rfl, rfl, rfl, ?_⟩
  intro q
  cases q <;> exact ⟨rfl, rfl, rfl⟩

/-- C8: result materialization tags each successful result's object URL with
the media type of its command kind — video/mp4 for trim and mp4-format merge,
video/webm for convert and webm-format merge — and a frames result gets a
per-frame image/jpeg object URL for every extracted frame but no single
combined URL. -/
theorem C8_result_media_types (env : Env) (fmt : MergeFormat) (d : List Nat)
    (fs : List FrameIn) :
    (materialize env CmdKind.trim fmt { data := some d }).map
        (fun r => r.objectUrl) = some (some ⟨"video/mp4"⟩) ∧
    (materialize env CmdKind.convert fmt { data := some d }).map
        (fun r => r.objectUrl) = some (some ⟨"video/webm"⟩) ∧
    (materialize env CmdKind.merge MergeFormat.mp4 { data := some d }).map
        (fun r => r.objectUrl) = some (some ⟨"video/mp4"⟩) ∧
    (materialize env CmdKind.merge MergeFormat.webm { data := some d }).map
        (fun r => r.objectUrl) = some (some ⟨"video/webm"⟩) ∧
    (materialize env CmdKind.frames fmt { frames := some fs }).map
        (fun r => (r.objectUrl, (r.frames.getD []).map (fun f => f.objectUrl)))
      = some (none, fs.map (fun _ => ⟨"image/jpeg"⟩)) := by
  refine ⟨rfl, rfl, rfl, rfl, ?_⟩
  have h1 : (materialize env CmdKind.frames fmt { frames := some fs }).map
      (fun r => (r.objectUrl, (r.frames.getD []).map (fun f => f.objectUrl)))
      = some (none,
        (fs.map fun f => (⟨f.name, f.data, ⟨"image/jpeg"⟩⟩ : FrameOut)).map
          (fun f => f.objectUrl)) := rfl
  rw [h1, List.map_map]
  rfl

/-- Counterexample for C9: take the fresh client, load it successfully, and
call `terminate()`; the next `load` (hence any command) does not create a new
execution context — the worker reference stays `null`, nothing is posted, and
the call's promise is immediately rejected with the worker-not-initialized
error. -/
theorem C9_counterexample :
    ((onWorkerMsg envT (loadCall true true freshClient).1
        ⟨RespType.loaded, {}⟩).1.terminate).worker = none ∧
    (loadCall true true
        (onWorkerMsg envT (loadCall true true freshClient).1
          ⟨RespType.loaded, {}⟩).1.terminate).2.2 =
      LoadResult.created 1 (some workerNotInitMsg) ∧
    (loadCall true true
        (onWorkerMsg envT (loadCall true true freshClient).1
          ⟨RespType.loaded, {}⟩).1.terminate).1.worker = none ∧
    ((loadCall true true
        (onWorkerMsg envT (loadCall true true freshClient).1
          ⟨RespType.loaded, {}⟩).1.terminate).2.1.any isPost) = false := by
  exact ⟨rfl, rfl, rfl, rfl⟩

/-- C9 (amended): after `terminate()` the session state resets to unloaded
(`isLoaded` false, memoized load promise cleared, timeout disarmed) and the
context reference is cleared; but no new execution context is created on the
next use — a subsequent `load` posts nothing and immediately rejects with
"Worker not initialized" (a fresh context is created only by the constructor
or by the timeout-recovery path). -/
theorem C9_terminate_state (c : Client) (hasCb : Bool) :
    c.terminate.worker = none ∧
    c.terminate.isLoaded = false ∧
    c.terminate.loadPromise = none ∧
    c.terminate.timeoutArmed = false ∧
    c.terminate.nextGen = c.nextGen ∧
    loadCall true hasCb c.terminate =
      ({ c.terminate with
           loadPromise :=
             some ⟨c.nextPid, PState.rejectedP workerNotInitMsg, false⟩,
           nextPid := c.nextPid + 1 },
       [Effect.loadReject c.nextPid workerNotInitMsg],
       LoadResult.created c.nextPid (some workerNotInitMsg)) ∧
    (loadCall true hasCb c.terminate).1.worker = none := by
  exact ⟨rfl, rfl, rfl, rfl, rfl, rfl, rfl⟩

/-- C10: `merge` with fewer than two clips throws "Need at least 2 clips to
merge" before awaiting load: the client state is returned unchanged (log
accumulator, active callback, timeout flag all untouched) and no effect — no
callback invocation, no post to the execution context — is produced. -/
theorem C10_merge_guard (sab hasCb : Bool) (clips : List ClipIn) (c : Client)
    (h : clips.length < 2) :
    mergeCall sab hasCb clips c = (c, [], Except.error mergeTooFewMsg) := by
  simp [mergeCall, h]

/-- Witness for C10: merging a single clip. -/
theorem C10_witness :
    ([(⟨[7], 0, 1⟩ : ClipIn)]).length < 2 ∧
    mergeCall true true [⟨[7], 0, 1⟩] freshClient =
      (freshClient, [], Except.error mergeTooFewMsg) :=
  ⟨by decide, C10_merge_guard true true [⟨[7], 0, 1⟩] freshClient (by decide)⟩

end WebVideo



